import Mathlib

/-!
Shallow embedding of the haproxy-operator charm core:
`src/charm.py` (event handlers of `HaproxyCharm`) and
`src/haproxy_instance_manager.py` (`HaproxyInstanceManager`,
`TCPLoadBalancerPoolAdapter`, `BindSocketSpec`, `ServerSpec`).

Side-effecting code is embedded as functions returning explicit effect
traces (`Effect` lists); a Python exception that escapes a handler is an
`error` field in `HandlerResult`, carrying the effects performed before
the raise.  Pure transformations (`TCPLoadBalancerPoolAdapter` and the
spec classes it builds) are embedded as pure functions; a Python dict
lookup that can raise `KeyError` is `Option`-valued.
-/

namespace HaproxyOperator

/-- Modelled from the spec: the `BalancingAlgorithm` enum imported from the
external `tcp_lb` module (not part of `src/`); the spec's data model fixes its
members as ROUND_ROBIN | LEAST_CONNECTIONS | SOURCE_IP. -/
inductive BalancingAlgorithm where
  | ROUND_ROBIN
  | LEAST_CONNECTIONS
  | SOURCE_IP
deriving DecidableEq, Repr

/-- Modelled from the spec: the `Listener` record delivered by the
desired-topology feed: name, port, balancing algorithm. -/
structure Listener where
  name : String
  port : Nat
  balancing_algorithm : BalancingAlgorithm
deriving DecidableEq, Repr

/-- Modelled from the spec: a `Backend` record: name, address, port, optional
monitor_port, optional weight. -/
structure Backend where
  name : String
  address : String
  port : Nat
  monitor_port : Option Nat
  weight : Option Nat
deriving DecidableEq, Repr

/-- Modelled from the spec: a `BackendPool`: one listener plus ordered
members. -/
structure Pool where
  listener : Listener
  members : List Backend
deriving DecidableEq, Repr

/-- `BindSocketSpec` of haproxy_instance_manager.py: address plus port. -/
structure BindSocketSpec where
  address : String
  port_range : Nat
deriving DecidableEq, Repr

/-- `BindSocketSpec.__str__`: `f'{self.address}:{self.port_range}'`. -/
def BindSocketSpec.toStr (s : BindSocketSpec) : String :=
  s.address ++ ":" ++ toString s.port_range

/-- `ServerSpec` of haproxy_instance_manager.py.  The constructor stores the
`check_port` argument privately (`self._check_port`); we call that stored
field `checkPortStored`. -/
structure ServerSpec where
  name : String
  address : String
  port : Nat
  checkPortStored : Option Nat
  weight : Option Nat
deriving DecidableEq, Repr

/-- `ServerSpec.check_port` property: the stored check port when given,
otherwise the server's own port. -/
def ServerSpec.check_port (s : ServerSpec) : Nat :=
  s.checkPortStored.getD s.port

/-- The `SimpleNamespace` built by `TCPLoadBalancerPoolAdapter._process_pool`. -/
structure ListenSection where
  name : String
  socket_specs_str : String
  mode : String
  balance : String
  servers : List ServerSpec
deriving DecidableEq, Repr

/-- `TCPLoadBalancerPoolAdapter.BALANCING_ALGORITHMS`, kept as the Python dict
literal: an association list from algorithm to haproxy balance keyword. -/
def BALANCING_ALGORITHMS : List (BalancingAlgorithm × String) :=
  [(BalancingAlgorithm.ROUND_ROBIN, "roundrobin"),
   (BalancingAlgorithm.LEAST_CONNECTIONS, "leastconn"),
   (BalancingAlgorithm.SOURCE_IP, "source")]

/-- Python dict subscript `d[k]` on the table: `some` the mapped value, `none`
when the key is absent (a `KeyError` in the source). -/
def dictLookup (d : List (BalancingAlgorithm × String)) (k : BalancingAlgorithm) :
    Option String :=
  match d with
  | [] => none
  | (k2, v) :: rest => if k2 = k then some v else dictLookup rest k

/-- `TCPLoadBalancerPoolAdapter._bind_socket_specs`: one empty-address spec
when `addresses` is `None`, otherwise an append loop over the addresses. -/
def bind_socket_specs (addresses : Option (List String)) (port : Nat) :
    List BindSocketSpec :=
  match addresses with
  | none => [{ address := "", port_range := port }]
  | some addrs =>
      addrs.foldl (fun acc a => acc ++ [{ address := a, port_range := port }]) []

/-- `TCPLoadBalancerPoolAdapter._server_specs`: for each backend, a
`ServerSpec` storing the backend's `monitor_port` as the check-port
argument. -/
def server_specs (backends : List Backend) : List ServerSpec :=
  backends.map (fun backend =>
    { name := backend.name,
      address := backend.address,
      port := backend.port,
      checkPortStored := backend.monitor_port,
      weight := backend.weight })

/-- `TCPLoadBalancerPoolAdapter._process_pool`, generalized over the balance
table (the source reads the class attribute `BALANCING_ALGORITHMS`); `none`
models the `KeyError` raised on an unmapped algorithm. -/
def process_pool_tbl (tbl : List (BalancingAlgorithm × String))
    (bind_addresses : Option (List String)) (pool : Pool) : Option ListenSection :=
  let socket_specs := bind_socket_specs bind_addresses pool.listener.port
  let socket_specs_str := String.intercalate "," (socket_specs.map BindSocketSpec.toStr)
  match dictLookup tbl pool.listener.balancing_algorithm with
  | none => none
  | some balance =>
      some { name := pool.listener.name,
             socket_specs_str := socket_specs_str,
             mode := "tcp",
             balance := balance,
             servers := server_specs pool.members }

/-- `_process_pool` with the class's own table. -/
def process_pool (bind_addresses : Option (List String)) (pool : Pool) :
    Option ListenSection :=
  process_pool_tbl BALANCING_ALGORITHMS bind_addresses pool

/-- `TCPLoadBalancerPoolAdapter.listen_sections`: the append loop over the
pools; an exception from `_process_pool` (`none`) aborts the whole
computation, as the Python `KeyError` would. -/
def listen_sections (bind_addresses : Option (List String)) :
    List Pool → Option (List ListenSection)
  | [] => some []
  | p :: ps =>
      match process_pool bind_addresses p, listen_sections bind_addresses ps with
      | some s, some ss => some (s :: ss)
      | _, _ => none

/-- `VRRPScript` as constructed in `charm.py`: a name and a script line. -/
structure VRRPScript where
  name : String
  script : String
deriving DecidableEq, Repr

/-- `VRRPInstance` as constructed in `charm.py`. -/
structure VRRPInstance where
  name : String
  router_id : Nat
  virtual_ips : List String
  interface : String
  track_interfaces : List String
  track_scripts : List VRRPScript
deriving DecidableEq, Repr

/-- A unit status set by the charm (`ActiveStatus` / `BlockedStatus msg`). -/
inductive Status where
  | active
  | blocked (msg : String)
deriving DecidableEq, Repr

/-- One observable side effect of the charm or the instance manager. -/
inductive Effect where
  | systemctl (cmd : String)
  | writeFile (path content : String)
  | setStatus (s : Status)
  | publishVRRP (instances : List VRRPInstance)
  | deferEvent
deriving DecidableEq, Repr

/-- Result of running a handler: the effects performed, and `some msg` when a
Python exception escaped after those effects. -/
structure HandlerResult where
  effects : List Effect
  error : Option String
deriving DecidableEq, Repr

/-- The haproxy config path `f'/etc/haproxy/juju-{app_name}.cfg'`. -/
def haproxy_conf_file (appName : String) : String :=
  "/etc/haproxy/juju-" ++ appName ++ ".cfg"

def countEff (p : Effect → Bool) (l : List Effect) : Nat :=
  (l.filter p).length

def isRestart : Effect → Bool
  | Effect.systemctl c => c = "restart"
  | _ => false

def isStop : Effect → Bool
  | Effect.systemctl c => c = "stop"
  | _ => false

def isPublish : Effect → Bool
  | Effect.publishVRRP _ => true
  | _ => false

def isSetStatus : Effect → Bool
  | Effect.setStatus _ => true
  | _ => false

/-! ### HaproxyInstanceManager (haproxy_instance_manager.py) -/

/-- `HaproxyInstanceManager._do_reconfigure`: render the config and write it
to the instance's config file. -/
def do_reconfigure (rendered appName : String) : List Effect :=
  [Effect.writeFile (haproxy_conf_file appName) rendered]

/-- `HaproxyInstanceManager._run_restart`. -/
def run_restart : List Effect :=
  [Effect.systemctl "restart"]

/-- `HaproxyInstanceManager.reconfigure`: `_do_reconfigure` then
`_run_restart`, with no consultation of `_stored.is_started` (the flag is in
scope but unread, hence the unused parameter). -/
def manager_reconfigure (is_started : Bool) (rendered appName : String) :
    List Effect :=
  do_reconfigure rendered appName ++ run_restart

/-- `HaproxyInstanceManager.start`: start the service only when not yet
started; returns (effects, new is_started flag). -/
def manager_start (is_started : Bool) : List Effect × Bool :=
  if is_started = false then ([Effect.systemctl "start"], true)
  else ([], is_started)

/-- `HaproxyInstanceManager.stop`, verbatim from the source: the guard is
`if not self._stored.is_started`, so the `systemctl stop` call runs when the
flag is false; the final line then assigns through `self.state.is_started`,
an attribute this class never defines (its stored state lives in `_stored`).
We model the service-control effects the method performs. -/
def manager_stop (is_started : Bool) : List Effect :=
  if is_started = false then [Effect.systemctl "stop"]
  else []

/-! ### HaproxyCharm (charm.py) -/

/-- The inputs the charm handlers read from the model, the relations and the
config store. -/
structure CharmEnv where
  appName : String
  frontend_ports : List Nat
  is_joined : Bool
  interfaces : List String
  virtual_ip : Option String
  virtual_router_id : Nat
  rendered_haproxy_conf : String
deriving DecidableEq, Repr

/-- The loop in `reconfigure_keepalived` building one `VRRPScript` per
frontend port. -/
def vrrp_scripts_for (ports : List Nat) : List VRRPScript :=
  ports.map (fun port =>
    { name := "haproxy_port_" ++ toString port ++ "_check",
      script := "script \"bash -c '</dev/tcp/127.0.0.1/" ++ toString port ++ "'\"" })

/-- `HaproxyCharm.reconfigure_keepalived`: early return when no peer is
joined; `interfaces[0]` raises `IndexError` when the binding reports no
interfaces; with no `virtual-ip` config a blocked status is set and the
method returns; otherwise one `VRRPInstance` is published and the status set
active. -/
def reconfigure_keepalived (env : CharmEnv) : HandlerResult :=
  if env.is_joined = false then { effects := [], error := none }
  else
    let scripts := vrrp_scripts_for env.frontend_ports
    match env.interfaces.head? with
    | none => { effects := [], error := some "IndexError: list index out of range" }
    | some vip_interface =>
      match env.virtual_ip with
      | none =>
          { effects := [Effect.setStatus
              (Status.blocked "Waiting for an administrator to set virtual-ip.")],
            error := none }
      | some vip =>
          let inst : VRRPInstance :=
            { name := env.appName,
              router_id := env.virtual_router_id,
              virtual_ips := [vip],
              interface := vip_interface,
              track_interfaces := [vip_interface],
              track_scripts := scripts }
          { effects := [Effect.publishVRRP [inst], Effect.setStatus Status.active],
            error := none }

/-- `HaproxyCharm.reconfigure_haproxy`: write the rendered config and restart
haproxy unconditionally. -/
def reconfigure_haproxy (env : CharmEnv) : List Effect :=
  [Effect.writeFile (haproxy_conf_file env.appName) env.rendered_haproxy_conf,
   Effect.systemctl "restart"]

/-- `HaproxyCharm.on_keepalived_available`, verbatim from the source: when
the charm has not started, `event.defer()` is called, but the handler does
not return — `reconfigure_keepalived` runs in the same delivery. -/
def on_keepalived_available (started : Bool) (env : CharmEnv) : HandlerResult :=
  let d : List Effect := if started = false then [Effect.deferEvent] else []
  let r := reconfigure_keepalived env
  { effects := d ++ r.effects, error := r.error }

/-- `HaproxyCharm.on_config_changed`: reconfigure haproxy, reconfigure
keepalived, then restart haproxy once more; an exception escaping
`reconfigure_keepalived` skips the final restart. -/
def on_config_changed (env : CharmEnv) : HandlerResult :=
  let h := reconfigure_haproxy env
  let k := reconfigure_keepalived env
  match k.error with
  | some e => { effects := h ++ k.effects, error := some e }
  | none => { effects := h ++ k.effects ++ [Effect.systemctl "restart"], error := none }

/-- `HaproxyCharm.on_stop`: stop the service only when the `started` stored
flag is set; returns (effects, new started flag). -/
def charm_on_stop (started : Bool) : List Effect × Bool :=
  if started then ([Effect.systemctl "stop"], false)
  else ([], started)

/-- The fixed balancing table as the spec and the claims state it, written as
a total function for comparison with the source's dict
`BALANCING_ALGORITHMS`: ROUND_ROBIN maps to roundrobin, LEAST_CONNECTIONS to
leastconn, SOURCE_IP to source. -/
def balance_table : BalancingAlgorithm → String
  | BalancingAlgorithm.ROUND_ROBIN => "roundrobin"
  | BalancingAlgorithm.LEAST_CONNECTIONS => "leastconn"
  | BalancingAlgorithm.SOURCE_IP => "source"

/-! ## Helper lemmas (shared) -/

theorem foldl_append_map {α β : Type} (f : α → β) :
    ∀ (l : List α) (acc : List β),
      l.foldl (fun acc a => acc ++ [f a]) acc = acc ++ l.map f
  | [], acc => by simp
  | x :: xs, acc => by
      simp [List.foldl, foldl_append_map f xs]

theorem process_pool_exists (ba : Option (List String)) (pool : Pool) :
    ∃ sec, process_pool ba pool = some sec ∧
      sec.balance = balance_table pool.listener.balancing_algorithm := by
  obtain ⟨⟨n, p, alg⟩, mem⟩ := pool
  cases alg <;> exact ⟨_, rfl, rfl⟩

theorem keepalived_no_restart (env : CharmEnv) :
    countEff isRestart (reconfigure_keepalived env).effects = 0 := by
  unfold reconfigure_keepalived
  split
  · rfl
  · split
    · rfl
    · split
      · rfl
      · rfl

/-! ## Claim theorems -/

/-- C2 counterexample: `HaproxyInstanceManager.reconfigure` called with the
started flag false performs a restart side effect, refuting the claim that
zero process-restart side effects occur when the state is not STARTED. -/
theorem reconfigure_restarts_when_not_started :
    ¬ (countEff isRestart (manager_reconfigure false "listen cfg" "haproxy") = 0) := by
  decide

/-- C2 (amended): every call to `reconfigure`, whatever the started flag,
writes the rendered configuration to the configuration file and performs
exactly one restart side effect; the flag is never consulted. -/
theorem reconfigure_always_writes_and_restarts
    (is_started : Bool) (rendered appName : String) :
    Effect.writeFile (haproxy_conf_file appName) rendered ∈
      manager_reconfigure is_started rendered appName ∧
    countEff isRestart (manager_reconfigure is_started rendered appName) = 1 := by
  constructor
  · simp [manager_reconfigure, do_reconfigure, run_restart]
  · rfl

/-- C3: evaluation of `HaproxyInstanceManager.stop` at both flag values: the
guard is inverted, so a service stop runs exactly when the instance is
already stopped and no stop runs when it is started — the opposite of the
claim and of the spec. -/
theorem manager_stop_guard_inverted :
    manager_stop false = [Effect.systemctl "stop"] ∧ manager_stop true = [] :=
  ⟨rfl, rfl⟩

/-- C4 counterexample: with `bindAddresses` the empty list the adapter emits
zero bind specifications for a port-9000 listener, not the single
empty-address specification the claim states. -/
theorem bind_specs_empty_list_yields_zero :
    ¬ ((bind_socket_specs (some []) 9000).length = 1) := by
  decide

/-- C4 (amended): when `bindAddresses` is absent (`None`) exactly one bind
specification with an empty address and the listener's port is produced;
when it is a list, exactly one specification per address is produced, in
order — so the empty list yields zero specifications. -/
theorem bind_specs_shape :
    (∀ port : Nat,
        bind_socket_specs none port = [{ address := "", port_range := port }]) ∧
    (∀ (addrs : List String) (port : Nat),
        bind_socket_specs (some addrs) port =
          addrs.map (fun a => { address := a, port_range := port })) := by
  refine ⟨fun port => rfl, fun addrs port => ?_⟩
  simp [bind_socket_specs, foldl_append_map]

/-- C6: the source's balance dict agrees with the fixed table on every
algorithm value, every pool is mapped to a section whose balance field is the
table's value, and an algorithm missing from the lookup table makes the
section build fail (return `none`, the `KeyError`) rather than produce a
default balance. -/
theorem balance_mapping_fail_fast :
    (∀ alg, dictLookup BALANCING_ALGORITHMS alg = some (balance_table alg)) ∧
    (∀ (ba : Option (List String)) (pool : Pool), ∃ sec,
        process_pool ba pool = some sec ∧
        sec.balance = balance_table pool.listener.balancing_algorithm) ∧
    (∀ (tbl : List (BalancingAlgorithm × String)) (ba : Option (List String))
        (pool : Pool),
        dictLookup tbl pool.listener.balancing_algorithm = none →
        process_pool_tbl tbl ba pool = none) := by
  refine ⟨fun alg => ?_, process_pool_exists, fun tbl ba pool h => ?_⟩
  · cases alg <;> rfl
  · simp [process_pool_tbl, h]

/-- C6 witness: the fail-fast branch at a concrete input — the empty lookup
table maps no algorithm, and the section build returns `none` there. -/
theorem balance_mapping_fail_fast_witness :
    process_pool_tbl [] none
      { listener := { name := "web", port := 80,
                      balancing_algorithm := BalancingAlgorithm.ROUND_ROBIN },
        members := [] } = none :=
  balance_mapping_fail_fast.2.2 [] none
    { listener := { name := "web", port := 80,
                    balancing_algorithm := BalancingAlgorithm.ROUND_ROBIN },
      members := [] } rfl

/-- C9: for every backend the emitted server specification's `check_port` is
the backend's `monitor_port` when present and the backend's own port when
absent, whatever the other fields hold. -/
theorem server_spec_check_port (backends : List Backend) :
    (server_specs backends).map ServerSpec.check_port =
      backends.map (fun b =>
        match b.monitor_port with
        | some m => m
        | none => b.port) := by
  induction backends with
  | nil => rfl
  | cons b bs ih =>
      cases hm : b.monitor_port <;>
        simp [server_specs, ServerSpec.check_port, hm] at ih ⊢ <;>
        simpa [server_specs] using ih

/-- C1: evaluation of `on_keepalived_available` at a not-yet-started charm
with a joined peer, one interface and a configured virtual IP: the handler
defers the event and nevertheless performs one VRRP publication in the same
delivery, because `event.defer()` is not followed by a return. -/
theorem keepalived_available_publishes_before_start :
    countEff isPublish (on_keepalived_available false
      { appName := "haproxy", frontend_ports := [80], is_joined := true,
        interfaces := ["eth0"], virtual_ip := some "10.20.0.100",
        virtual_router_id := 50, rendered_haproxy_conf := "" }).effects = 1 ∧
    Effect.deferEvent ∈ (on_keepalived_available false
      { appName := "haproxy", frontend_ports := [80], is_joined := true,
        interfaces := ["eth0"], virtual_ip := some "10.20.0.100",
        virtual_router_id := 50, rendered_haproxy_conf := "" }).effects := by
  constructor
  · rfl
  · simp [on_keepalived_available]

/-- C5 counterexample: with a joined peer and an empty interface list,
`reconfigure_keepalived` raises an `IndexError` at `interfaces[0]` and sets
no status at all, refuting the claim that a blocked/waiting status is
reported and the handler returns cleanly. -/
theorem keepalived_empty_interfaces_crash :
    (reconfigure_keepalived
      { appName := "haproxy", frontend_ports := [80], is_joined := true,
        interfaces := [], virtual_ip := some "10.20.0.100",
        virtual_router_id := 50, rendered_haproxy_conf := "" }).error =
      some "IndexError: list index out of range" ∧
    countEff isSetStatus (reconfigure_keepalived
      { appName := "haproxy", frontend_ports := [80], is_joined := true,
        interfaces := [], virtual_ip := some "10.20.0.100",
        virtual_router_id := 50, rendered_haproxy_conf := "" }).effects = 0 :=
  ⟨rfl, rfl⟩

/-- C5 (amended): when the network-binding facts give an empty interface
list and a peer is joined, the HA-reconfiguration path produces zero
VRRP-publication side effects and sets no status, but it does not return
cleanly: an index error escapes the handler. -/
theorem keepalived_empty_interfaces_behaviour (env : CharmEnv)
    (hj : env.is_joined = true) (hi : env.interfaces = []) :
    (reconfigure_keepalived env).error.isSome = true ∧
    countEff isPublish (reconfigure_keepalived env).effects = 0 ∧
    countEff isSetStatus (reconfigure_keepalived env).effects = 0 := by
  simp [reconfigure_keepalived, hj, hi, countEff]

/-- C5 witness: the amended behaviour at a concrete environment. -/
theorem keepalived_empty_interfaces_behaviour_witness :
    (reconfigure_keepalived
      { appName := "haproxy", frontend_ports := [], is_joined := true,
        interfaces := [], virtual_ip := none, virtual_router_id := 50,
        rendered_haproxy_conf := "" }).error.isSome = true ∧
    countEff isPublish (reconfigure_keepalived
      { appName := "haproxy", frontend_ports := [], is_joined := true,
        interfaces := [], virtual_ip := none, virtual_router_id := 50,
        rendered_haproxy_conf := "" }).effects = 0 ∧
    countEff isSetStatus (reconfigure_keepalived
      { appName := "haproxy", frontend_ports := [], is_joined := true,
        interfaces := [], virtual_ip := none, virtual_router_id := 50,
        rendered_haproxy_conf := "" }).effects = 0 :=
  keepalived_empty_interfaces_behaviour
    { appName := "haproxy", frontend_ports := [], is_joined := true,
      interfaces := [], virtual_ip := none, virtual_router_id := 50,
      rendered_haproxy_conf := "" } rfl rfl

/-- C7: with a joined peer, a resolved interface and no virtual IP
configured, `reconfigure_keepalived` sets exactly the blocked status with its
human-readable reason and returns cleanly, with zero VRRP-publication side
effects. -/
theorem keepalived_missing_vip_blocked (env : CharmEnv)
    (hj : env.is_joined = true) (iface : String) (rest : List String)
    (hi : env.interfaces = iface :: rest) (hv : env.virtual_ip = none) :
    reconfigure_keepalived env =
      { effects := [Effect.setStatus
          (Status.blocked "Waiting for an administrator to set virtual-ip.")],
        error := none } := by
  simp [reconfigure_keepalived, hj, hi, hv]

/-- C7 witness: the blocked-status outcome at a concrete environment with a
joined peer, one interface and no virtual IP. -/
theorem keepalived_missing_vip_blocked_witness :
    reconfigure_keepalived
      { appName := "haproxy", frontend_ports := [80], is_joined := true,
        interfaces := ["eth0"], virtual_ip := none, virtual_router_id := 50,
        rendered_haproxy_conf := "" } =
      { effects := [Effect.setStatus
          (Status.blocked "Waiting for an administrator to set virtual-ip.")],
        error := none } :=
  keepalived_missing_vip_blocked
    { appName := "haproxy", frontend_ports := [80], is_joined := true,
      interfaces := ["eth0"], virtual_ip := none, virtual_router_id := 50,
      rendered_haproxy_conf := "" } rfl "eth0" [] rfl rfl

/-- C8: `listen_sections` is a pure function of its input: recomputation on
identical input gives an identical result, the empty pool list yields the
empty section list, and every pool list yields one section per pool, in
order. -/
theorem listen_sections_pure_deterministic
    (ba : Option (List String)) (pools : List Pool) :
    listen_sections ba pools = listen_sections ba pools ∧
    listen_sections ba ([] : List Pool) = some [] ∧
    ∃ secs, listen_sections ba pools = some secs ∧ secs.length = pools.length := by
  refine ⟨rfl, rfl, ?_⟩
  induction pools with
  | nil => exact ⟨[], rfl, rfl⟩
  | cons p ps ih =>
      obtain ⟨secs, hs, hl⟩ := ih
      obtain ⟨sec, hp, -⟩ := process_pool_exists ba p
      exact ⟨sec :: secs, by simp [listen_sections, hp, hs], by simp [hl]⟩

/-- C10: every run of `on_config_changed` that completes without an
exception performs exactly two haproxy restart side effects: one inside
`reconfigure_haproxy` and one final restart after the keepalived step, with
no dependence on the started flag (the handler never reads it). -/
theorem config_changed_two_restarts (env : CharmEnv)
    (h : (on_config_changed env).error = none) :
    countEff isRestart (on_config_changed env).effects = 2 ∧
    countEff isRestart (reconfigure_haproxy env) = 1 := by
  have hk := keepalived_no_restart env
  refine ⟨?_, rfl⟩
  simp only [on_config_changed] at h ⊢
  cases he : (reconfigure_keepalived env).error with
  | some e =>
      rw [he] at h
      simp at h
  | none =>
      have h1 : countEff isRestart (reconfigure_haproxy env) = 1 := rfl
      simp only [countEff, List.filter_append, List.length_append] at h1 hk
      simp [countEff, List.filter_append, h1, hk, isRestart]

/-- C10 witness: two restarts at a concrete environment with no joined peer,
where the handler completes without an exception. -/
theorem config_changed_two_restarts_witness :
    countEff isRestart (on_config_changed
      { appName := "haproxy", frontend_ports := [], is_joined := false,
        interfaces := [], virtual_ip := none, virtual_router_id := 50,
        rendered_haproxy_conf := "" }).effects = 2 ∧
    countEff isRestart (reconfigure_haproxy
      { appName := "haproxy", frontend_ports := [], is_joined := false,
        interfaces := [], virtual_ip := none, virtual_router_id := 50,
        rendered_haproxy_conf := "" }) = 1 :=
  config_changed_two_restarts
    { appName := "haproxy", frontend_ports := [], is_joined := false,
      interfaces := [], virtual_ip := none, virtual_router_id := 50,
      rendered_haproxy_conf := "" } rfl

end HaproxyOperator
